import Mathlib

/-!
Shallow embedding of the watermelon scene viewer (`src/src/App.jsx`).

The component keeps a small amount of mutable state: the ModelGroup's Euler
rotation (`watermelonGroup.rotation.x` / `.y`), the drag flag `isDragging`
and the last pointer coordinates `lastX` / `lastY`.  The event handlers
`onPointerDown`, `onPointerMove`, `onPointerUp` and the per-frame `animate`
step are embedded below as pure state transformers; numbers are modelled as
real numbers.
-/

namespace Watermelon

noncomputable section

/-- The mutable interaction state of the component: the ModelGroup rotation
(`watermelonGroup.rotation.x`, `.y`) and the drag-tracking variables
`isDragging`, `lastX`, `lastY` (App.jsx lines 122-124, initialised there). -/
structure AppState where
  rotationX : ℝ
  rotationY : ℝ
  isDragging : Bool
  lastX : ℝ
  lastY : ℝ

/-- The pitch clamp of App.jsx lines 147-150:
`Math.max(-Math.PI / 3, Math.min(Math.PI / 3, rotation.x))`. -/
def clampPitch (v : ℝ) : ℝ :=
  max (-(Real.pi / 3)) (min (Real.pi / 3) v)

/-- Handler `onPointerDown` (App.jsx lines 131-136), after coordinate extraction:
set the drag flag and record the current coordinates as "last". -/
def onPointerDown (s : AppState) (x y : ℝ) : AppState :=
  { s with isDragging := true, lastX := x, lastY := y }

/-- Handler `onPointerMove` (App.jsx lines 138-154), after coordinate extraction:
no-op unless dragging; otherwise `rotation.y += dx * 0.01`,
`rotation.x += dy * 0.005`, clamp `rotation.x`, and update `lastX`/`lastY`. -/
def onPointerMove (s : AppState) (x y : ℝ) : AppState :=
  if s.isDragging then
    let dx := x - s.lastX
    let dy := y - s.lastY
    { rotationX := clampPitch (s.rotationX + dy * 0.005)
      rotationY := s.rotationY + dx * 0.01
      isDragging := true
      lastX := x
      lastY := y }
  else s

/-- Handler `onPointerUp` (App.jsx lines 156-158): clear the drag flag. -/
def onPointerUp (s : AppState) : AppState :=
  { s with isDragging := false }

/-- One iteration of the `animate` loop (App.jsx lines 180-186), restricted
to its state effect: if not dragging, `rotation.y += 0.005`. -/
def animate (s : AppState) : AppState :=
  if !s.isDragging then { s with rotationY := s.rotationY + 0.005 } else s

/-- The events that can reach the interaction state: pointer-down and
pointer-move (with extracted coordinates), pointer-up (covering mouseup,
mouseleave, touchend, touchcancel) and an idle render frame. -/
inductive Event where
  | down (x y : ℝ)
  | move (x y : ℝ)
  | up
  | frame

/-- Dispatch one event to its handler (the listener registrations of
App.jsx lines 160-167 and the `animate` loop). -/
def step (s : AppState) : Event → AppState
  | .down x y => onPointerDown s x y
  | .move x y => onPointerMove s x y
  | .up => onPointerUp s
  | .frame => animate s

/-- Run a sequence of events from a state. -/
def run (es : List Event) (s : AppState) : AppState :=
  es.foldl step s

/-- The initial state (App.jsx lines 122-124: `isDragging = false`,
`lastX = lastY = 0`; a fresh `THREE.Group` has rotation `(0, 0)`). -/
def initState : AppState :=
  { rotationX := 0, rotationY := 0, isDragging := false, lastX := 0, lastY := 0 }

/-- The four DOM event names that App.jsx lines 162-167 all bind to
`onPointerUp`. -/
inductive UpEventName where
  | mouseup
  | mouseleave
  | touchend
  | touchcancel

/-- The handler registered for each of the four releasing event names is
`onPointerUp` (App.jsx lines 162-167). -/
def upHandler : UpEventName → AppState → AppState :=
  fun _ => onPointerUp

lemma clampPitch_lower (v : ℝ) : -(Real.pi / 3) ≤ clampPitch v :=
  le_max_left _ _

lemma clampPitch_upper (v : ℝ) : clampPitch v ≤ Real.pi / 3 := by
  have hpi : (0 : ℝ) ≤ Real.pi / 3 := by positivity
  exact max_le (by linarith) (min_le_left _ _)

lemma clampPitch_of_mem {v : ℝ} (h1 : -(Real.pi / 3) ≤ v) (h2 : v ≤ Real.pi / 3) :
    clampPitch v = v := by
  unfold clampPitch
  rw [min_eq_right h2, max_eq_right h1]

/-- Each event preserves membership of the pitch in the clamp interval. -/
lemma step_pitch_mem (s : AppState) (e : Event)
    (h1 : -(Real.pi / 3) ≤ s.rotationX) (h2 : s.rotationX ≤ Real.pi / 3) :
    -(Real.pi / 3) ≤ (step s e).rotationX ∧ (step s e).rotationX ≤ Real.pi / 3 := by
  cases e with
  | down x y => exact ⟨h1, h2⟩
  | move x y =>
      by_cases hd : s.isDragging
      · simp only [step, onPointerMove, hd, if_true]
        exact ⟨clampPitch_lower _, clampPitch_upper _⟩
      · simp only [step, onPointerMove, hd, if_false]
        exact ⟨h1, h2⟩
  | up => exact ⟨h1, h2⟩
  | frame =>
      by_cases hd : s.isDragging <;>
        simp only [step, animate, hd, Bool.not_true, Bool.not_false, if_true, if_false] <;>
        exact ⟨h1, h2⟩

lemma run_pitch_mem (es : List Event) (s : AppState)
    (h1 : -(Real.pi / 3) ≤ s.rotationX) (h2 : s.rotationX ≤ Real.pi / 3) :
    -(Real.pi / 3) ≤ (run es s).rotationX ∧ (run es s).rotationX ≤ Real.pi / 3 := by
  induction es generalizing s with
  | nil => exact ⟨h1, h2⟩
  | cons e es ih =>
      have h := step_pitch_mem s e h1 h2
      exact ih (step s e) h.1 h.2

/-- C1: starting from any state whose pitch (x-rotation) is 0 — in
particular the initial state — every sequence of pointer-down,
pointer-move, pointer-up and idle-frame events leaves the pitch within
`[-π/3, π/3]`. -/
theorem pitch_always_in_clamp_interval (es : List Event) (yw : ℝ) (d : Bool)
    (lx ly : ℝ) :
    -(Real.pi / 3) ≤ (run es ⟨0, yw, d, lx, ly⟩).rotationX ∧
      (run es ⟨0, yw, d, lx, ly⟩).rotationX ≤ Real.pi / 3 := by
  have hpi : (0 : ℝ) ≤ Real.pi / 3 := by positivity
  exact run_pitch_mem es ⟨0, yw, d, lx, ly⟩ (by simpa using neg_nonpos.mpr hpi)
    (by simpa using hpi)

/-- C2: a pointer-move while dragging adds `dx * 0.01` to the yaw and
`dy * 0.005` to the pitch (then clamps the pitch and stores the new "last"
coordinates); a pointer-move while not dragging changes nothing; in
particular a drag move from `(100, 100)` to `(150, 100)` adds exactly `0.5`
to the yaw and leaves a pitch already inside the clamp interval unchanged. -/
theorem onPointerMove_spec (s : AppState) (x y p yw : ℝ)
    (hp1 : -(Real.pi / 3) ≤ p) (hp2 : p ≤ Real.pi / 3) :
    (s.isDragging = true →
      onPointerMove s x y =
        { rotationX := clampPitch (s.rotationX + (y - s.lastY) * 0.005)
          rotationY := s.rotationY + (x - s.lastX) * 0.01
          isDragging := true
          lastX := x
          lastY := y }) ∧
    (s.isDragging = false → onPointerMove s x y = s) ∧
    (onPointerMove ⟨p, yw, true, 100, 100⟩ 150 100).rotationY = yw + 0.5 ∧
    (onPointerMove ⟨p, yw, true, 100, 100⟩ 150 100).rotationX = p := by
  refine ⟨fun hd => ?_, fun hd => ?_, ?_, ?_⟩
  · simp [onPointerMove, hd]
  · simp [onPointerMove, hd]
  · simp only [onPointerMove, if_true]
    norm_num
  · simp [onPointerMove]
    exact clampPitch_of_mem hp1 hp2

/-- Witness for C2: from pitch 0, yaw 0, dragging with last `(100, 100)`,
the move to `(150, 100)` yields yaw `0.5` and pitch `0`. -/
theorem onPointerMove_spec_witness :
    (onPointerMove ⟨0, 0, true, 100, 100⟩ 150 100).rotationY = 0 + 0.5 ∧
      (onPointerMove ⟨0, 0, true, 100, 100⟩ 150 100).rotationX = 0 := by
  have hpi : (0 : ℝ) ≤ Real.pi / 3 := by positivity
  have h := onPointerMove_spec initState 150 100 0 0 (by linarith) hpi
  exact ⟨h.2.2.1, h.2.2.2⟩

/-- C3, counterexample: the claimed scenario is wrong.  A drag move from
`(100, 100)` to `(100, 260)` starting at pitch 0 yields pitch `0.8`, and
`0.8` is not `π/3`: the unclamped value does NOT exceed `π/3 ≈ 1.047`, so
no clamping to `π/3` happens. -/
theorem drag_to_260_pitch_not_clamped :
    (onPointerMove ⟨0, 0, true, 100, 100⟩ 100 260).rotationX ≠ Real.pi / 3 := by
  have hpi : (3.141592 : ℝ) < Real.pi := Real.pi_gt_d6
  have hval : (onPointerMove ⟨0, 0, true, 100, 100⟩ 100 260).rotationX = 0.8 := by
    simp only [onPointerMove, if_true]
    rw [show (0 : ℝ) + ((260 : ℝ) - 100) * 0.005 = 0.8 by norm_num]
    exact clampPitch_of_mem (by norm_num; linarith) (by norm_num; linarith)
  rw [hval]
  intro h
  nlinarith

/-- C3, amended: a drag move from `(100, 100)` to `(100, 260)` starting at
pitch 0 adds `0.8 = 160 × 0.005` to the pitch; since `0.8 ≤ π/3` the clamp
leaves the pitch at `0.8`. -/
theorem drag_to_260_pitch_eq :
    (onPointerMove ⟨0, 0, true, 100, 100⟩ 100 260).rotationX = 0.8 ∧
      (0.8 : ℝ) ≤ Real.pi / 3 := by
  have hpi : (3.141592 : ℝ) < Real.pi := Real.pi_gt_d6
  constructor
  · simp only [onPointerMove, if_true]
    rw [show (0 : ℝ) + ((260 : ℝ) - 100) * 0.005 = 0.8 by norm_num]
    exact clampPitch_of_mem (by norm_num; linarith) (by norm_num; linarith)
  · norm_num
    linarith

/-- C5: a render frame adds exactly `0.005` to the yaw when the state is
IDLE, does nothing when DRAGGING, and never modifies the pitch. -/
theorem animate_spec (s : AppState) :
    (s.isDragging = false → animate s = { s with rotationY := s.rotationY + 0.005 }) ∧
    (s.isDragging = true → animate s = s) ∧
    (animate s).rotationX = s.rotationX := by
  refine ⟨fun hd => ?_, fun hd => ?_, ?_⟩
  · simp [animate, hd]
  · simp [animate, hd]
  · unfold animate
    by_cases hd : s.isDragging <;> simp [hd]

/-- Witness for C5: a frame in an idle state adds `0.005` to the yaw. -/
theorem animate_spec_witness :
    animate ⟨1, 2, false, 3, 4⟩ = ⟨1, 2 + 0.005, false, 3, 4⟩ :=
  (animate_spec ⟨1, 2, false, 3, 4⟩).1 rfl

/-- C6: each of the four releasing DOM events (mouseup, mouseleave,
touchend, touchcancel) is handled by `onPointerUp`, which sets the drag
state to IDLE whatever the prior state and stored last coordinates were,
and changes nothing else. -/
theorem upHandler_forces_idle (n : UpEventName) (s : AppState) :
    (upHandler n s).isDragging = false ∧
      (upHandler n s).rotationX = s.rotationX ∧
      (upHandler n s).rotationY = s.rotationY ∧
      (upHandler n s).lastX = s.lastX ∧
      (upHandler n s).lastY = s.lastY :=
  ⟨rfl, rfl, rfl, rfl, rfl⟩

/-- The perspective camera state touched by `onResize` (App.jsx
lines 17-22, 170-176). -/
structure Camera where
  fov : ℝ
  aspect : ℝ
  near : ℝ
  far : ℝ

/-- The renderer output size touched by `renderer.setSize` (App.jsx
lines 170-176). -/
structure Renderer where
  width : ℝ
  height : ℝ

/-- Handler `onResize` (App.jsx lines 170-176): with the container's client
dimensions `(w, h)`, set `camera.aspect = w / h` and the renderer size to
`(w, h)`. -/
def onResize (w h : ℝ) (c : Camera) (r : Renderer) : Camera × Renderer :=
  ({ c with aspect := w / h }, { width := w, height := h })

/-- C7: after `onResize` runs with container client dimensions `(w, h)`,
the renderer's output size is `(w, h)` and the camera aspect ratio is
`w / h`; the camera's field of view and clip planes are untouched. -/
theorem onResize_spec (w h : ℝ) (c : Camera) (r : Renderer) :
    (onResize w h c r).2.width = w ∧
      (onResize w h c r).2.height = h ∧
      (onResize w h c r).1.aspect = w / h ∧
      (onResize w h c r).1.fov = c.fov ∧
      (onResize w h c r).1.near = c.near ∧
      (onResize w h c r).1.far = c.far :=
  ⟨rfl, rfl, rfl, rfl, rfl, rfl⟩

/-- Canvas size of the striped texture (App.jsx line 53). -/
def texSize : ℝ := 512

/-- Number of stripes (App.jsx line 59). -/
def stripeCount : Nat := 14

/-- The call `ctx.fillRect(0, y1, texSize, h)` on a full-width canvas, modelled on
the vertical coordinate: the rows `[y1, y1 + h)` take the fill style, the
rest keeps the previous content. -/
def fillRect (y1 h : ℝ) (style : String) (canvas : ℝ → Option String) :
    ℝ → Option String :=
  fun y => if y1 ≤ y ∧ y < y1 + h then some style else canvas y

/-- The stripe loop of App.jsx lines 60-65 after `n` iterations: iteration
`i` fills rows `[i * texSize / stripeCount, (i + 1) * texSize / stripeCount)`
with `"#0b8a25"` when `i` is even and `"#033d0b"` when `i` is odd. -/
def stripesLoop : Nat → ℝ → Option String
  | 0 => fun _ => none
  | n + 1 =>
      let style := if n % 2 = 0 then "#0b8a25" else "#033d0b"
      let y1 := (n : ℝ) * texSize / stripeCount
      let y2 := ((n : ℝ) + 1) * texSize / stripeCount
      fillRect y1 (y2 - y1) style (stripesLoop n)

/-- The finished stripe pattern: all `stripeCount` iterations. -/
def stripes : ℝ → Option String := stripesLoop stripeCount

/-- Texture wrap modes (THREE.RepeatWrapping vs. the default). -/
inductive Wrapping where
  | clampToEdge
  | repeatWrapping

/-- The texture settings of App.jsx lines 53-56 and 67-70: a 512×512
canvas texture, repeating in both axes. -/
structure TextureState where
  width : Nat
  height : Nat
  wrapS : Wrapping
  wrapT : Wrapping
  repeatX : ℝ
  repeatY : ℝ

/-- The striped texture as configured in App.jsx lines 53-56, 67-70. -/
def texture : TextureState :=
  { width := 512, height := 512
    wrapS := .repeatWrapping, wrapT := .repeatWrapping
    repeatX := 1, repeatY := 1 }

/-- Rows of band `i` keep band `i`'s colour through every later iteration:
iterations `> i` paint strictly higher rows. -/
lemma stripesLoop_band (i : Nat) (y : ℝ)
    (h1 : (i : ℝ) * texSize / stripeCount ≤ y)
    (h2 : y < ((i : ℝ) + 1) * texSize / stripeCount) :
    ∀ m, i < m →
      stripesLoop m y = some (if i % 2 = 0 then "#0b8a25" else "#033d0b") := by
  intro m
  induction m with
  | zero => omega
  | succ k ih =>
      intro hk
      rcases Nat.lt_succ_iff_lt_or_eq.mp hk with hlt | heq
      · have hky : ¬ ((k : ℝ) * texSize / stripeCount ≤ y) := by
          have hik : ((i : ℝ) + 1) ≤ (k : ℝ) := by
            exact_mod_cast Nat.succ_le_of_lt hlt
          have hmono : ((i : ℝ) + 1) * texSize / stripeCount ≤
              (k : ℝ) * texSize / stripeCount := by
            have hts : (0 : ℝ) ≤ texSize / stripeCount := by
              norm_num [texSize, stripeCount]
            calc ((i : ℝ) + 1) * texSize / stripeCount
                = ((i : ℝ) + 1) * (texSize / stripeCount) := by ring
              _ ≤ (k : ℝ) * (texSize / stripeCount) := by
                  exact mul_le_mul_of_nonneg_right hik hts
              _ = (k : ℝ) * texSize / stripeCount := by ring
          linarith
        simp only [stripesLoop, fillRect]
        rw [if_neg (by intro hc; exact hky hc.1)]
        exact ih hlt
      · subst heq
        simp only [stripesLoop, fillRect]
        rw [if_pos]
        constructor
        · exact h1
        · calc y < ((i : ℝ) + 1) * texSize / stripeCount := h2
            _ = (i : ℝ) * texSize / stripeCount +
                (((i : ℝ) + 1) * texSize / stripeCount -
                  (i : ℝ) * texSize / stripeCount) := by ring

/-- C8: the texture is a 512×512 canvas set to repeat in both axes, built
from 14 full-width bands: every row `y` of band `i` (that is,
`i*512/14 ≤ y < (i+1)*512/14` with `i < 14`) ends up filled with the light
green `#0b8a25` for even `i` and the dark green `#033d0b` for odd `i`. -/
theorem striped_texture_spec (i : Nat) (y : ℝ) (hi : i < 14)
    (h1 : (i : ℝ) * 512 / 14 ≤ y) (h2 : y < ((i : ℝ) + 1) * 512 / 14) :
    texture.width = 512 ∧ texture.height = 512 ∧
      texture.wrapS = Wrapping.repeatWrapping ∧
      texture.wrapT = Wrapping.repeatWrapping ∧
      stripes y = some (if i % 2 = 0 then "#0b8a25" else "#033d0b") := by
  refine ⟨rfl, rfl, rfl, rfl, ?_⟩
  have h1' : (i : ℝ) * texSize / stripeCount ≤ y := by
    simpa [texSize, stripeCount] using h1
  have h2' : y < ((i : ℝ) + 1) * texSize / stripeCount := by
    simpa [texSize, stripeCount] using h2
  exact stripesLoop_band i y h1' h2' stripeCount (by simpa [stripeCount] using hi)

/-- Witness for C8: row `y = 150` lies in band 4 (`4·512/14 ≈ 146.3` to
`5·512/14 ≈ 182.9`), an even band, so it is light green. -/
theorem striped_texture_spec_witness :
    stripes 150 = some "#0b8a25" := by
  have h := striped_texture_spec 4 150 (by norm_num) (by norm_num) (by norm_num)
  simpa using h.2.2.2.2

/-- A three-component vector (THREE.Vector3). -/
structure Vec3 where
  x : ℝ
  y : ℝ
  z : ℝ

/-- An axis-aligned bounding box (THREE.Box3). -/
structure Box3 where
  lo : Vec3
  hi : Vec3

/-- The loaded object, reduced to what the success callback touches: the
axis-aligned bounding box of its geometry under the identity transform
(`geomMin`/`geomMax`), its uniform scale and its position.  `OBJLoader`
returns the object with scale 1 and position `(0, 0, 0)`. -/
structure Obj3D where
  geomMin : Vec3
  geomMax : Vec3
  scale : ℝ
  position : Vec3

/-- Model of `new THREE.Box3().setFromObject(obj)`: the world-space bounding box of
the object under its current uniform scale and translation (each interval
endpoint is the smaller / larger of the two scaled geometry endpoints). -/
def setFromObject (o : Obj3D) : Box3 :=
  { lo := { x := o.position.x + min (o.scale * o.geomMin.x) (o.scale * o.geomMax.x)
            y := o.position.y + min (o.scale * o.geomMin.y) (o.scale * o.geomMax.y)
            z := o.position.z + min (o.scale * o.geomMin.z) (o.scale * o.geomMax.z) }
    hi := { x := o.position.x + max (o.scale * o.geomMin.x) (o.scale * o.geomMax.x)
            y := o.position.y + max (o.scale * o.geomMin.y) (o.scale * o.geomMax.y)
            z := o.position.z + max (o.scale * o.geomMin.z) (o.scale * o.geomMax.z) } }

/-- Model of `box.getSize(...)` (App.jsx lines 102-103). -/
def getSize (b : Box3) : Vec3 :=
  { x := b.hi.x - b.lo.x, y := b.hi.y - b.lo.y, z := b.hi.z - b.lo.z }

/-- Model of `box.getCenter(...)` (App.jsx lines 110-111). -/
def getCenter (b : Box3) : Vec3 :=
  { x := (b.lo.x + b.hi.x) / 2, y := (b.lo.y + b.hi.y) / 2, z := (b.lo.z + b.hi.z) / 2 }

/-- The value `Math.max(size.x, size.y, size.z)` on the object's current bounding
box (App.jsx lines 101-104, before the `|| 1` fallback). -/
def maxDimOf (o : Obj3D) : ℝ :=
  let size := getSize (setFromObject o)
  max (max size.x size.y) size.z

/-- The value `Math.max(size.x, size.y, size.z) || 1` (App.jsx line 104): the JS
`|| 1` replaces a zero maximum dimension by 1. -/
def maxDimOr1 (o : Obj3D) : ℝ :=
  if maxDimOf o = 0 then 1 else maxDimOf o

/-- The value `scale = 3 / maxDim` (App.jsx line 105). -/
def objScale (o : Obj3D) : ℝ :=
  3 / maxDimOr1 o

/-- The normalisation of the success callback (App.jsx lines 100-113):
set the uniform scale to `3 / maxDim`, recompute the bounding box, subtract
its center from the position, then overwrite `position.y` with `-0.5`. -/
def normalizeObj (o : Obj3D) : Obj3D :=
  let o1 : Obj3D := { o with scale := objScale o }
  let center := getCenter (setFromObject o1)
  let p : Vec3 := { x := o1.position.x - center.x, y := o1.position.y - center.y,
                    z := o1.position.z - center.z }
  { o1 with position := { x := p.x, y := -0.5, z := p.z } }

/-- An example loaded object: a 1×2×1 box with corners `(0,0,0)` and
`(1,2,1)`, as delivered by the loader (scale 1, position 0). -/
def tallObj : Obj3D :=
  { geomMin := ⟨0, 0, 0⟩, geomMax := ⟨1, 2, 1⟩, scale := 1, position := ⟨0, 0, 0⟩ }

/-- C4, counterexample: the bounding-box center does NOT always land at
`(0, -0.5, 0)`.  For the 1×2×1 object `tallObj` the callback scales by
`3/2` and then overwrites `position.y` with `-0.5` (discarding the vertical
centering), so the final bounding-box center is `(0, 1, 0)`. -/
theorem normalize_center_counterexample :
    getCenter (setFromObject (normalizeObj tallObj)) = ⟨0, 1, 0⟩ ∧
      (⟨0, 1, 0⟩ : Vec3) ≠ ⟨0, -0.5, 0⟩ := by
  constructor
  · simp only [normalizeObj, tallObj, objScale, maxDimOr1, maxDimOf, setFromObject,
      getSize, getCenter]
    norm_num [min_def, max_def]
  · intro h
    have := congrArg Vec3.y h
    norm_num at this

/-- C4, amended: for a loaded object (scale 1, position 0) with geometry
box corners `(a1, a2, a3) ≤ (b1, b2, b3)` and a positive maximum dimension,
the callback leaves the largest bounding-box dimension at exactly 3, and
the bounding-box center at x = 0, z = 0 but y = `scale·(a2+b2)/2 - 0.5`
(`scale = 3 / maxDim`): the vertical centering is overwritten, so the
center is `(0, -0.5, 0)` only when the geometry box is vertically centered
on the origin. -/
theorem normalize_spec (a1 a2 a3 b1 b2 b3 : ℝ)
    (hx : a1 ≤ b1) (hy : a2 ≤ b2) (hz : a3 ≤ b3)
    (hdim : 0 < max (max (b1 - a1) (b2 - a2)) (b3 - a3)) :
    max (max
        (getSize (setFromObject (normalizeObj ⟨⟨a1, a2, a3⟩, ⟨b1, b2, b3⟩, 1, ⟨0, 0, 0⟩⟩))).x
        (getSize (setFromObject (normalizeObj ⟨⟨a1, a2, a3⟩, ⟨b1, b2, b3⟩, 1, ⟨0, 0, 0⟩⟩))).y)
      (getSize (setFromObject (normalizeObj ⟨⟨a1, a2, a3⟩, ⟨b1, b2, b3⟩, 1, ⟨0, 0, 0⟩⟩))).z
      = 3 ∧
    (getCenter (setFromObject (normalizeObj ⟨⟨a1, a2, a3⟩, ⟨b1, b2, b3⟩, 1, ⟨0, 0, 0⟩⟩))).x
      = 0 ∧
    (getCenter (setFromObject (normalizeObj ⟨⟨a1, a2, a3⟩, ⟨b1, b2, b3⟩, 1, ⟨0, 0, 0⟩⟩))).z
      = 0 ∧
    (getCenter (setFromObject (normalizeObj ⟨⟨a1, a2, a3⟩, ⟨b1, b2, b3⟩, 1, ⟨0, 0, 0⟩⟩))).y
      = 3 / max (max (b1 - a1) (b2 - a2)) (b3 - a3) * (a2 + b2) / 2 - 0.5 := by
  have hMne : max (max (b1 - a1) (b2 - a2)) (b3 - a3) ≠ 0 := ne_of_gt hdim
  have hspos : (0 : ℝ) < 3 / max (max (b1 - a1) (b2 - a2)) (b3 - a3) :=
    div_pos (by norm_num) hdim
  have hsx : 3 / max (max (b1 - a1) (b2 - a2)) (b3 - a3) * a1 ≤
      3 / max (max (b1 - a1) (b2 - a2)) (b3 - a3) * b1 :=
    mul_le_mul_of_nonneg_left hx hspos.le
  have hsy : 3 / max (max (b1 - a1) (b2 - a2)) (b3 - a3) * a2 ≤
      3 / max (max (b1 - a1) (b2 - a2)) (b3 - a3) * b2 :=
    mul_le_mul_of_nonneg_left hy hspos.le
  have hsz : 3 / max (max (b1 - a1) (b2 - a2)) (b3 - a3) * a3 ≤
      3 / max (max (b1 - a1) (b2 - a2)) (b3 - a3) * b3 :=
    mul_le_mul_of_nonneg_left hz hspos.le
  have hbox : setFromObject (normalizeObj ⟨⟨a1, a2, a3⟩, ⟨b1, b2, b3⟩, 1, ⟨0, 0, 0⟩⟩) =
      ⟨⟨3 / max (max (b1 - a1) (b2 - a2)) (b3 - a3) * (a1 - b1) / 2,
        3 / max (max (b1 - a1) (b2 - a2)) (b3 - a3) * a2 - 0.5,
        3 / max (max (b1 - a1) (b2 - a2)) (b3 - a3) * (a3 - b3) / 2⟩,
       ⟨3 / max (max (b1 - a1) (b2 - a2)) (b3 - a3) * (b1 - a1) / 2,
        3 / max (max (b1 - a1) (b2 - a2)) (b3 - a3) * b2 - 0.5,
        3 / max (max (b1 - a1) (b2 - a2)) (b3 - a3) * (b3 - a3) / 2⟩⟩ := by
    simp only [normalizeObj, objScale, maxDimOr1, maxDimOf, setFromObject, getSize,
      getCenter, one_mul, zero_add]
    simp only [min_eq_left hx, min_eq_left hy, min_eq_left hz,
      max_eq_right hx, max_eq_right hy, max_eq_right hz]
    rw [if_neg hMne]
    simp only [min_eq_left hsx, min_eq_left hsy, min_eq_left hsz,
      max_eq_right hsx, max_eq_right hsy, max_eq_right hsz]
    simp only [Box3.mk.injEq, Vec3.mk.injEq]
    refine ⟨⟨by ring, by ring, by ring⟩, by ring, by ring, by ring⟩
  rw [hbox]
  refine ⟨?_, ?_, ?_, ?_⟩
  · have h1 : getSize
        (⟨⟨3 / max (max (b1 - a1) (b2 - a2)) (b3 - a3) * (a1 - b1) / 2,
           3 / max (max (b1 - a1) (b2 - a2)) (b3 - a3) * a2 - 0.5,
           3 / max (max (b1 - a1) (b2 - a2)) (b3 - a3) * (a3 - b3) / 2⟩,
          ⟨3 / max (max (b1 - a1) (b2 - a2)) (b3 - a3) * (b1 - a1) / 2,
           3 / max (max (b1 - a1) (b2 - a2)) (b3 - a3) * b2 - 0.5,
           3 / max (max (b1 - a1) (b2 - a2)) (b3 - a3) * (b3 - a3) / 2⟩⟩ : Box3) =
        ⟨3 / max (max (b1 - a1) (b2 - a2)) (b3 - a3) * (b1 - a1),
         3 / max (max (b1 - a1) (b2 - a2)) (b3 - a3) * (b2 - a2),
         3 / max (max (b1 - a1) (b2 - a2)) (b3 - a3) * (b3 - a3)⟩ := by
      simp only [getSize, Vec3.mk.injEq]
      refine ⟨by ring, by ring, by ring⟩
    rw [h1]
    show max (max _ _) _ = 3
    rw [← mul_max_of_nonneg _ _ hspos.le, ← mul_max_of_nonneg _ _ hspos.le]
    exact div_mul_cancel₀ 3 hMne
  · simp only [getCenter]
    ring
  · simp only [getCenter]
    ring
  · simp only [getCenter]
    ring

/-- A degenerate loaded object: a single point, whose bounding box has
maximum dimension 0. -/
def pointObj : Obj3D :=
  { geomMin := ⟨0, 0, 0⟩, geomMax := ⟨0, 0, 0⟩, scale := 1, position := ⟨0, 0, 0⟩ }

/-- C9: the `|| 1` fallback makes the scale divisor never zero, and for a
degenerate object whose maximum bounding-box dimension is 0 the applied
scale factor is `3 / 1 = 3`, not an infinity. -/
theorem scale_divisor_spec (o : Obj3D) :
    maxDimOr1 o ≠ 0 ∧ (maxDimOf o = 0 → objScale o = 3) := by
  constructor
  · unfold maxDimOr1
    by_cases h : maxDimOf o = 0
    · rw [if_pos h]
      norm_num
    · rw [if_neg h]
      exact h
  · intro h
    unfold objScale maxDimOr1
    rw [if_pos h]
    norm_num

/-- Witness for C9: the point object has maximum dimension 0 and gets
scale factor 3. -/
theorem scale_divisor_spec_witness : objScale pointObj = 3 := by
  have h0 : maxDimOf pointObj = 0 := by
    simp [maxDimOf, setFromObject, getSize, pointObj]
  exact (scale_divisor_spec pointObj).2 h0

/-- Witness for C4 (amended): for the unit cube the final largest
dimension is 3 and the final center height is `3/1 · 1/2 - 0.5 = 1`. -/
theorem normalize_spec_witness :
    max (max
        (getSize (setFromObject (normalizeObj ⟨⟨0, 0, 0⟩, ⟨1, 1, 1⟩, 1, ⟨0, 0, 0⟩⟩))).x
        (getSize (setFromObject (normalizeObj ⟨⟨0, 0, 0⟩, ⟨1, 1, 1⟩, 1, ⟨0, 0, 0⟩⟩))).y)
      (getSize (setFromObject (normalizeObj ⟨⟨0, 0, 0⟩, ⟨1, 1, 1⟩, 1, ⟨0, 0, 0⟩⟩))).z
      = 3 ∧
    (getCenter (setFromObject (normalizeObj ⟨⟨0, 0, 0⟩, ⟨1, 1, 1⟩, 1, ⟨0, 0, 0⟩⟩))).y
      = 3 / max (max ((1 : ℝ) - 0) (1 - 0)) (1 - 0) * (0 + 1) / 2 - 0.5 := by
  have h := normalize_spec 0 0 0 1 1 1 (by norm_num) (by norm_num) (by norm_num)
    (by norm_num [max_def])
  exact ⟨h.1, h.2.2.2⟩

/-- A pointer or touch event, reduced to the fields `getXY` reads: an
optional `touches` list (each touch carrying its client coordinates) and
the event's own `clientX` / `clientY`. -/
structure PointerEvt where
  touches : Option (List (ℝ × ℝ))
  clientX : ℝ
  clientY : ℝ

/-- Extraction `getXY` (App.jsx lines 126-129): with a `touches` list present, read
the first touch's coordinates (`e.touches[0].clientX/Y` — reading the
missing first element of an empty list is a crash, modelled as `none`);
otherwise read the event's own `clientX` / `clientY`. -/
def getXY (e : PointerEvt) : Option (ℝ × ℝ) :=
  match e.touches with
  | some ts => ts.head?
  | none => some (e.clientX, e.clientY)

/-- C10: the shared coordinate extraction returns the first touch's
coordinates whenever the event carries a touches list, the event's own
coordinates otherwise, and is only well-defined when a carried touches
list is non-empty: on an empty touches list it reads a missing element. -/
theorem getXY_spec (e : PointerEvt) (t : ℝ × ℝ) (ts : List (ℝ × ℝ)) :
    (e.touches = some (t :: ts) → getXY e = some t) ∧
    (e.touches = none → getXY e = some (e.clientX, e.clientY)) ∧
    (e.touches = some [] → getXY e = none) := by
  refine ⟨fun h => ?_, fun h => ?_, fun h => ?_⟩ <;> simp [getXY, h]

/-- Witness for C10: a touch event with one touch at `(5, 6)` yields
`(5, 6)`, not the event's own `(7, 8)`. -/
theorem getXY_spec_witness : getXY ⟨some [(5, 6)], 7, 8⟩ = some (5, 6) :=
  (getXY_spec ⟨some [(5, 6)], 7, 8⟩ (5, 6) []).1 rfl

end

end Watermelon
